import Mathlib

/-!
Verification of the hybrid food-resolution engine in `src/server.js`
(final snapshot, lines 1186-1715 of the file).

JavaScript numbers are modelled as exact rationals (`ℚ`); the
`Number.isFinite` guards of the source, which can only fail on decimal
literals beyond the double range, are therefore always true in the model
and are noted where they occur.  Strings are modelled as Lean `String`s
over their character lists.
-/

attribute [local semireducible] Rat.mul Rat.inv Rat.add Rat.sub Rat.ofScientific

namespace FoodResolve

/-- ASCII lower-casing, as `String.prototype.toLowerCase` acts on the
ASCII texts handled by the service. -/
def jsLower (c : Char) : Char := c.toLower

/-- JS regex `\s` on ASCII input: space, tab, line feed, vertical tab,
form feed, carriage return. -/
def isJsSpace (c : Char) : Bool :=
  c = ' ' || c = '\t' || c = '\n' || c = '\r' ||
  c = Char.ofNat 11 || c = Char.ofNat 12

/-- A lower-case letter or digit (the class kept by
`replace(/[^a-z0-9\s]/g, " ")`). -/
def isLowerAlnum (c : Char) : Bool :=
  ('a' ≤ c && c ≤ 'z') || ('0' ≤ c && c ≤ '9')

/-- One character of `normText`: lower-case, then replace everything that
is not `[a-z0-9\s]` by a space (whitespace is kept as-is at this stage). -/
def normChar (c : Char) : Char :=
  let l := jsLower c
  if isLowerAlnum l || isJsSpace l then l else ' '

/-- Collapse every run of whitespace to a single space
(`replace(/\s+/g, " ")`), tracking whether the previous character was
part of a whitespace run. -/
def collapseWsGo : Bool → List Char → List Char
  | _, [] => []
  | prevWs, c :: cs =>
    if isJsSpace c then
      if prevWs then collapseWsGo true cs
      else ' ' :: collapseWsGo true cs
    else c :: collapseWsGo false cs

/-- Collapse every run of whitespace to a single space
(`replace(/\s+/g, " ")`). -/
def collapseWs (l : List Char) : List Char := collapseWsGo false l

/-- `String.prototype.trim` after collapsing: strip leading and trailing
spaces. -/
def trimSpaces (l : List Char) : List Char :=
  ((l.dropWhile (· = ' ')).reverse.dropWhile (· = ' ')).reverse

/-- `normText` of the source, on the character list: lower-case, replace
punctuation by spaces, collapse whitespace, trim. -/
def normTextL (s : String) : List Char :=
  trimSpaces (collapseWs (s.data.map normChar))

/-- `normText` as a string. -/
def normText (s : String) : String := String.mk (normTextL s)

/-- `tokenize` of the source: `normText(s).split(" ").filter(Boolean)`. -/
def tokenize (s : String) : List (List Char) :=
  ((normTextL s).splitOn ' ').filter (fun w => !w.isEmpty)

/-- Does `l` start with `p`? -/
def startsWith : List Char → List Char → Bool
  | [], _ => true
  | _ :: _, [] => false
  | p :: ps, c :: cs => p = c && startsWith ps cs

/-- `String.prototype.includes` on character lists. -/
def containsSub (needle : List Char) : List Char → Bool
  | [] => needle.isEmpty
  | c :: cs => startsWith needle (c :: cs) || containsSub needle cs

/-- `containsAllKeywords(haystack, words)` of the source. -/
def containsAllKeywords (haystack : String) (words : List String) : Bool :=
  words.all (fun w => containsSub (normTextL w) (normTextL haystack))

/-- `Math.round`: round half toward positive infinity. -/
def jsRound (x : ℚ) : ℤ := ⌊x + 1 / 2⌋

/-- `round1` of the source: `Number(x.toFixed(1))`; `toFixed` rounds to
the nearest tenth, ties toward the larger value.  The source's
`Number.isFinite` guard (returning 0) cannot fail on rationals. -/
def round1 (x : ℚ) : ℚ := (⌊x * 10 + 1 / 2⌋ : ℚ) / 10

/-- JS truthiness of a number-or-null value: `null` and `0` are falsy
(`NaN`, also falsy, does not arise for rationals). -/
def qTruthy : Option ℚ → Bool
  | none => false
  | some x => x ≠ 0

/-! ### Regex scanning layer

The quantity/basis extractors of the source are anchored-free JS regexes;
`String.prototype.match` returns the leftmost match.  We model each regex
by a function that tries to match at the head of a character list, and a
scanner that tries every start position from the left. -/

/-- JS regex `\w` (word character): `[A-Za-z0-9_]`. -/
def isWordChar (c : Char) : Bool :=
  ('a' ≤ c && c ≤ 'z') || ('A' ≤ c && c ≤ 'Z') ||
  ('0' ≤ c && c ≤ '9') || c = '_'

/-- Word boundary `\b` after a match: the next character, if any, is not
a word character. -/
def boundaryAt : List Char → Bool
  | [] => true
  | c :: _ => !isWordChar c

/-- Word boundary `\b` before a match position, given the previous
character (if any). -/
def boundaryBefore : Option Char → Bool
  | none => true
  | some c => !isWordChar c

def isDigitChar (c : Char) : Bool := '0' ≤ c && c ≤ '9'

def digitsToNat (ds : List Char) : ℕ :=
  ds.foldl (fun acc c => 10 * acc + (c.toNat - '0'.toNat)) 0

/-- Match `(\d+(?:\.\d+)?)` at the head of the list: the greedy numeral
with optional fraction, returning its rational value and the rest.
(The JS engine's backtracking can never shrink the digit runs here,
because in every source regex the character after the numeral is a
non-digit.) -/
def parseNumAt (l : List Char) : Option (ℚ × List Char) :=
  let ds := l.takeWhile isDigitChar
  if ds.isEmpty then none
  else
    let r1 := l.dropWhile isDigitChar
    let ip : ℚ := (digitsToNat ds : ℚ)
    match r1 with
    | '.' :: r2 =>
      let fs := r2.takeWhile isDigitChar
      if fs.isEmpty then some (ip, r1)
      else some (ip + (digitsToNat fs : ℚ) / (10 ^ fs.length : ℕ),
                 r2.dropWhile isDigitChar)
    | _ => some (ip, r1)

/-- `\s*`. -/
def skipWs (l : List Char) : List Char := l.dropWhile isJsSpace

/-- `\s+`: at least one whitespace character. -/
def skipWs1 : List Char → Option (List Char)
  | [] => none
  | c :: cs => if isJsSpace c then some (skipWs cs) else none

/-- Strip a case-insensitive literal (`/i` flag) from the head. -/
def ciStrip : List Char → List Char → Option (List Char)
  | [], l => some l
  | _ :: _, [] => none
  | p :: ps, c :: cs => if jsLower c = jsLower p then ciStrip ps cs else none

/-- Leftmost-match scanner: try the head matcher at every start position,
left to right. -/
def scanFirst (f : List Char → Option ℚ) : List Char → Option ℚ
  | [] => f []
  | c :: cs =>
    match f (c :: cs) with
    | some v => some v
    | none => scanFirst f cs

/-- Leftmost-match scanner for regexes that begin with `\b`: carries the
previous character so the boundary can be checked. -/
def scanFirstB (f : List Char → Option ℚ) :
    Option Char → List Char → Option ℚ
  | prev, [] => if boundaryBefore prev then f [] else none
  | prev, c :: cs =>
    match (if boundaryBefore prev then f (c :: cs) else none) with
    | some v => some v
    | none => scanFirstB f (some c) cs

/-- Boolean variant of `scanFirstB` for the `test` regexes. -/
def scanTestB (f : List Char → Bool) : Option Char → List Char → Bool
  | prev, [] => boundaryBefore prev && f []
  | prev, c :: cs =>
    (boundaryBefore prev && f (c :: cs)) || scanTestB f (some c) cs

/-! ### Quantity and basis extractors (`src/server.js` 1230-1297) -/

/-- Unit part `(g|gram|grams)\b` of the explicit-grams regex: the ordered
alternation succeeds at this position iff some alternative is followed by
a word boundary; the captured numeral is the same for each. -/
def gramsUnitAt (l : List Char) : Bool :=
  (match ciStrip ['g'] l with | some r => boundaryAt r | none => false) ||
  (match ciStrip ['g', 'r', 'a', 'm'] l with
   | some r => boundaryAt r | none => false) ||
  (match ciStrip ['g', 'r', 'a', 'm', 's'] l with
   | some r => boundaryAt r | none => false)

/-- Head match of `/(\d+(?:\.\d+)?)\s*(g|gram|grams)\b/i`. -/
def tryGramsAt (l : List Char) : Option ℚ :=
  match parseNumAt l with
  | none => none
  | some (v, r) => if gramsUnitAt (skipWs r) then some v else none

/-- `extractExplicitGrams` (`src/server.js` 1230-1235).  The
`Number.isFinite` guard cannot fail on rationals. -/
def extractExplicitGrams (text : String) : Option ℚ :=
  match scanFirst tryGramsAt text.data with
  | none => none
  | some v => if 0 < v then some v else none

/-- Head match of `/(\d+(?:\.\d+)?)\s*ml\b/i`. -/
def tryMlAt (l : List Char) : Option ℚ :=
  match parseNumAt l with
  | none => none
  | some (v, r) =>
    match ciStrip ['m', 'l'] (skipWs r) with
    | some r2 => if boundaryAt r2 then some v else none
    | none => none

/-- Head match of `/(\d+(?:\.\d+)?)\s*l\b/i`. -/
def tryLAt (l : List Char) : Option ℚ :=
  match parseNumAt l with
  | none => none
  | some (v, r) =>
    match ciStrip ['l'] (skipWs r) with
    | some r2 => if boundaryAt r2 then some v else none
    | none => none

/-- `extractExplicitMl` (`src/server.js` 1237-1254): try the `ml` regex
first; only when it has no match at all is the litre regex tried, and a
litre match is converted by multiplying by 1000. -/
def extractExplicitMl (text : String) : Option ℚ :=
  match scanFirst tryMlAt text.data with
  | some v => if 0 < v then some v else none
  | none =>
    match scanFirst tryLAt text.data with
    | some v => if 0 < v * 1000 then some (v * 1000) else none
    | none => none

/-- Head match of `/\bPer\s+(\d+(?:\.\d+)?)\s*g\b/i` (after the leading
boundary, which the scanner checks). -/
def tryPerGramsAt (l : List Char) : Option ℚ :=
  match ciStrip ['p', 'e', 'r'] l with
  | none => none
  | some r1 =>
    match skipWs1 r1 with
    | none => none
    | some r2 =>
      match parseNumAt r2 with
      | none => none
      | some (v, r3) =>
        match ciStrip ['g'] (skipWs r3) with
        | some r4 => if boundaryAt r4 then some v else none
        | none => none

/-- `extractPerGrams` (`src/server.js` 1256-1261). -/
def extractPerGrams (desc : String) : Option ℚ :=
  match scanFirstB tryPerGramsAt none desc.data with
  | none => none
  | some v => if 0 < v then some v else none

/-- Head match of `/\bPer\s+(\d+(?:\.\d+)?)\s*ml\b/i`. -/
def tryPerMlAt (l : List Char) : Option ℚ :=
  match ciStrip ['p', 'e', 'r'] l with
  | none => none
  | some r1 =>
    match skipWs1 r1 with
    | none => none
    | some r2 =>
      match parseNumAt r2 with
      | none => none
      | some (v, r3) =>
        match ciStrip ['m', 'l'] (skipWs r3) with
        | some r4 => if boundaryAt r4 then some v else none
        | none => none

/-- `extractPerMl` (`src/server.js` 1263-1268). -/
def extractPerMl (desc : String) : Option ℚ :=
  match scanFirstB tryPerMlAt none desc.data with
  | none => none
  | some v => if 0 < v then some v else none

/-- Head match of `/\bPer\s+(\d+(?:\.\d+)?)\s*fl\s*oz\b/i`. -/
def tryPerFlOzAt (l : List Char) : Option ℚ :=
  match ciStrip ['p', 'e', 'r'] l with
  | none => none
  | some r1 =>
    match skipWs1 r1 with
    | none => none
    | some r2 =>
      match parseNumAt r2 with
      | none => none
      | some (v, r3) =>
        match ciStrip ['f', 'l'] (skipWs r3) with
        | none => none
        | some r4 =>
          match ciStrip ['o', 'z'] (skipWs r4) with
          | some r5 => if boundaryAt r5 then some v else none
          | none => none

/-- `extractPerFlOzAsMl` (`src/server.js` 1270-1276): US fluid ounces to
millilitres, factor 29.5735. -/
def extractPerFlOzAsMl (desc : String) : Option ℚ :=
  match scanFirstB tryPerFlOzAt none desc.data with
  | none => none
  | some v => if 0 < v then some (v * (295735 / 10000 : ℚ)) else none

/-- Head test of `/\bPer\s+1\s+[A-Za-z]/i`. -/
def tryPerOneAt (l : List Char) : Bool :=
  match ciStrip ['p', 'e', 'r'] l with
  | none => false
  | some r1 =>
    match skipWs1 r1 with
    | none => false
    | some r2 =>
      match r2 with
      | '1' :: r3 =>
        match skipWs1 r3 with
        | none => false
        | some r4 =>
          match r4 with
          | c :: _ => ('a' ≤ jsLower c && jsLower c ≤ 'z')
          | [] => false
      | _ => false

/-- Head test of `/\bPer\s+serving\b/i`. -/
def tryPerServingAt (l : List Char) : Bool :=
  match ciStrip ['p', 'e', 'r'] l with
  | none => false
  | some r1 =>
    match skipWs1 r1 with
    | none => false
    | some r2 =>
      match ciStrip ['s', 'e', 'r', 'v', 'i', 'n', 'g'] r2 with
      | some r3 => boundaryAt r3
      | none => false

/-- `looksPerServingUnit` (`src/server.js` 1279-1284). -/
def looksPerServingUnit (desc : String) : Bool :=
  scanTestB tryPerOneAt none desc.data ||
  scanTestB tryPerServingAt none desc.data

/-- `looksLikeSnackPackQuery` (`src/server.js` 1287-1292). -/
def looksLikeSnackPackQuery (query : String) (grams : Option ℚ) : Bool :=
  if !qTruthy grams then false
  else
    let g := grams.getD 0
    if g < 20 || g > 100 then false
    else
      let q := normTextL query
      containsSub "crisps".data q || containsSub "chips".data q ||
      containsSub "snack".data q || containsSub "bag".data q ||
      containsSub "pack".data q

/-- `isBagOrPackServing` (`src/server.js` 1294-1297). -/
def isBagOrPackServing (desc : String) : Bool :=
  let d := normTextL desc
  containsSub "per 1 bag".data d || containsSub "per 1 pack".data d ||
  containsSub "per bag".data d || containsSub "per pack".data d

/-! ### Nutrition parser and candidate builder (`src/server.js` 1300-1346) -/

structure Nutrition where
  calories : ℚ
  fat : ℚ
  carbs : ℚ
  protein : ℚ
deriving DecidableEq, Repr

/-- Head match of `/Calories:\s*([0-9]+(?:\.[0-9]+)?)\s*kcal/i` (no word
boundaries in this regex). -/
def tryCaloriesAt (l : List Char) : Option ℚ :=
  match ciStrip "calories:".data l with
  | none => none
  | some r1 =>
    match parseNumAt (skipWs r1) with
    | none => none
    | some (v, r2) =>
      match ciStrip "kcal".data (skipWs r2) with
      | some _ => some v
      | none => none

/-- Head match of `/<label>:\s*([0-9]+(?:\.[0-9]+)?)\s*g/i` for the fat,
carbs and protein fields. -/
def tryMacroAt (label : List Char) (l : List Char) : Option ℚ :=
  match ciStrip label l with
  | none => none
  | some r1 =>
    match parseNumAt (skipWs r1) with
    | none => none
    | some (v, r2) =>
      match ciStrip ['g'] (skipWs r2) with
      | some _ => some v
      | none => none

/-- `parseNutrition` (`src/server.js` 1300-1319): calories are required,
the three macros default to 0 when their regex has no match.  The final
`Number.isFinite` guard cannot fail on rationals. -/
def parseNutrition (desc : String) : Option Nutrition :=
  match scanFirst tryCaloriesAt desc.data with
  | none => none
  | some c =>
    some { calories := c
           fat := (scanFirst (tryMacroAt "fat:".data) desc.data).getD 0
           carbs := (scanFirst (tryMacroAt "carbs:".data) desc.data).getD 0
           protein :=
             (scanFirst (tryMacroAt "protein:".data) desc.data).getD 0 }

/-- One raw entry of the catalog response
(`Entry = { food_id, food_name, brand_name?, food_description }`). -/
structure FsEntry where
  food_id : String
  food_name : Option String
  brand_name : Option String
  food_description : Option String
deriving DecidableEq, Repr

/-- The `foods.food` field of the catalog response: absent/null, a single
entry object, or a list of entries. -/
inductive FoodsField where
  | missing : FoodsField
  | single : FsEntry → FoodsField
  | list : List FsEntry → FoodsField
deriving DecidableEq, Repr

/-- `fsData?.foods?.food || []` followed by
`Array.isArray(foods) ? foods : [foods]`. -/
def foodArray : FoodsField → List FsEntry
  | .missing => []
  | .single e => [e]
  | .list es => es

structure Candidate where
  id : String
  name : String
  brand : Option String
  description : String
  nutrition : Option Nutrition
  per_grams : Option ℚ
  per_ml : Option ℚ
deriving DecidableEq, Repr

/-- The per-entry mapping step of `buildCandidates`: note `brand_name ||
null` turns an empty brand into null, and `food_description || ""`
defaults a missing description. -/
def mkCandidate (f : FsEntry) : Candidate :=
  let desc := f.food_description.getD ""
  { id := f.food_id
    name := f.food_name.getD ""
    brand :=
      match f.brand_name with
      | some b => if b = "" then none else some b
      | none => none
    description := desc
    nutrition := parseNutrition desc
    per_grams := extractPerGrams desc
    per_ml :=
      match extractPerMl desc with
      | some v => some v
      | none => extractPerFlOzAsMl desc }

/-- `buildCandidates` (`src/server.js` 1328-1346). -/
def buildCandidates (fsData : FoodsField) : List Candidate :=
  ((foodArray fsData).map mkCandidate).filter (fun c => c.nutrition.isSome)

/-! ### Token scorer (`src/server.js` 1200-1210) -/

/-- The candidate text scored against the query:
`brand + " " + name + " " + description` with null fields as "". -/
def candText (c : Candidate) : String :=
  c.brand.getD "" ++ " " ++ c.name ++ " " ++ c.description

/-- `tokenScore` (`src/server.js` 1200-1210).  `hit` counts the candidate
token *occurrences* (the candidate token list is not deduplicated) that
belong to the query token set; the denominator is `max(4, |qTokens|)`. -/
def tokenScore (query : String) (c : Candidate) : ℚ :=
  let qT := tokenize query
  if qT.isEmpty then 0
  else
    let cT := tokenize (candText c)
    ((cT.countP (fun t => decide (t ∈ qT)) : ℕ) : ℚ) /
      ((max 4 qT.length : ℕ) : ℚ)

/-- `extractBrandHints` (`src/server.js` 1212-1222): the fixed allow-list,
matched as raw substrings of the normalized query. -/
def extractBrandHints (query : String) : List String :=
  let q := normTextL query
  ["greggs", "walkers", "tesco", "costa", "mcdonald", "mcdonalds",
   "coca", "coca-cola", "coca cola", "alpro"].filter
    (fun k => containsSub k.data q)

/-! ### Deterministic scaler and scaling veto (`src/server.js` 1349-1384) -/

structure Scaled where
  mode : String
  calories : ℤ
  protein : ℚ
  carbs : ℚ
  fat : ℚ
  factor : ℚ
deriving DecidableEq, Repr

/-- `scaleCandidate` (`src/server.js` 1349-1370).  The source reads
`candidate.nutrition` unconditionally; in the resolve pipeline every
candidate passed here has parsed nutrition (`buildCandidates` filter), so
the `getD` default is never reached on the modelled paths. -/
def scaleCandidate (c : Candidate) (grams ml : Option ℚ) : Scaled :=
  let base := c.nutrition.getD ⟨0, 0, 0, 0⟩
  let fm : ℚ × String :=
    if qTruthy grams && qTruthy c.per_grams then
      (grams.getD 0 / c.per_grams.getD 0, "weight")
    else if qTruthy ml && qTruthy c.per_ml then
      (ml.getD 0 / c.per_ml.getD 0, "volume")
    else (1, "serving")
  { mode := fm.2
    calories := jsRound (base.calories * fm.1)
    protein := round1 (base.protein * fm.1)
    carbs := round1 (base.carbs * fm.1)
    fat := round1 (base.fat * fm.1)
    factor := fm.1 }

/-- `isScalingMismatch` (`src/server.js` 1373-1384). -/
def isScalingMismatch (c : Candidate) (grams ml : Option ℚ)
    (query : String) : Bool :=
  if qTruthy grams && !qTruthy c.per_grams &&
      looksPerServingUnit c.description then
    if looksLikeSnackPackQuery query grams &&
        isBagOrPackServing c.description then false
    else true
  else if qTruthy ml && !qTruthy c.per_ml &&
      looksPerServingUnit c.description then true
  else false

/-! ### Generative estimator (`src/server.js` 1387-1487)

`estimateAI` calls the generative service and post-processes its JSON.
The service call is a collaborator: its outcome is either a thrown error
(network failure or unparseable JSON, both of which surface as a JS
exception out of `estimateAI`) or a parsed payload.  Numeric payload
fields that the source guards with `Number.isFinite` or `|| 0` are
modelled as `Option ℚ` (`none` = missing or non-finite); the per-100g
macro fields, which the source multiplies unguarded, are modelled as
rationals (a non-numeric value there yields NaN outputs in JS, a value,
not an exception). -/

/-- The parsed generative JSON payload, covering the fields of both
prompt modes. -/
structure AiJson where
  name : String
  serving_description : String
  calories_per_100g : ℚ
  protein_per_100g : ℚ
  carbs_per_100g : ℚ
  fat_per_100g : ℚ
  estimated_serving_grams : Option ℚ
  calories : Option ℚ
  protein : Option ℚ
  carbs : Option ℚ
  fat : Option ℚ
  confidence : Option ℚ
deriving DecidableEq, Repr

/-- The result object returned by the resolve endpoint (debug-only keys
are not modelled). -/
structure ResolveOut where
  source : String
  mode : String
  name : String
  grams : Option ℚ
  ml : Option ℚ
  calories : ℤ
  protein : ℚ
  carbs : ℚ
  fat : ℚ
  confidence : ℚ
deriving DecidableEq, Repr

/-- `estimateAI` (`src/server.js` 1387-1487), parameterized by the
generative service outcome.  Weight mode asks per-100g and scales by
`grams / 100`; serving/volume mode uses the returned totals with `|| 0`
guards; confidence defaults are 0.7 and 0.65. -/
def estimateAI (food : String) (raw : Except Unit AiJson) :
    Except Unit ResolveOut :=
  match raw with
  | .error e => .error e
  | .ok j =>
    match extractExplicitGrams food with
    | some grams =>
      let factor := grams / 100
      .ok { source := "ai", mode := "weight", name := j.name
            grams := some grams, ml := none
            calories := jsRound (j.calories_per_100g * factor)
            protein := round1 (j.protein_per_100g * factor)
            carbs := round1 (j.carbs_per_100g * factor)
            fat := round1 (j.fat_per_100g * factor)
            confidence := j.confidence.getD (7 / 10) }
    | none =>
      let ml := extractExplicitMl food
      .ok { source := "ai", mode := if ml.isSome then "volume" else "serving"
            name := j.name, grams := j.estimated_serving_grams, ml := ml
            calories := jsRound (j.calories.getD 0)
            protein := round1 (j.protein.getD 0)
            carbs := round1 (j.carbs.getD 0)
            fat := round1 (j.fat.getD 0)
            confidence := j.confidence.getD (13 / 20) }

/-! ### Resolve orchestrator (`src/server.js` 1529-1715)

The route `app.post("/food/resolve", ensureFatSecretToken, handler)` is
modelled as a pure function of the request and of one outcome per
collaborator call (token state, cache lookup, generative estimate,
catalog search, AI candidate pick).  The returned pair carries the HTTP
response and the number of catalog-search invocations performed. -/

/-- Outcome of `pickBestCandidateIndex` (`src/server.js` 1490-1526) when
it does not throw: the coerced index and the clamped confidence.  (A
finite non-integer index in the raw JSON leads to an `undefined` array
access and a caught TypeError in the handler, i.e. the same observable
outcome as a throw, so indices are modelled as integers.) -/
structure Pick where
  index : ℤ
  confidence : ℚ
deriving DecidableEq, Repr

/-- One collaborator outcome per call the handler can make. -/
structure Env where
  credsSet : Bool
  tokenValid : Bool
  tokenFetchOk : Bool
  cached : Option ResolveOut
  aiRaw : Except Unit AiJson
  fsOutcome : Except Unit FoodsField
  pickOutcome : Except Unit Pick
deriving Repr

/-- HTTP-level response of the route: an error status (from the token
middleware or input validation) or a JSON result. -/
inductive Response where
  | err : ℕ → Response
  | ok : ResolveOut → Response
deriving DecidableEq, Repr

/-- The ultra-safe stub built when `estimateAI` throws
(`src/server.js` 1547-1558). -/
def aiStub (food : String) : ResolveOut :=
  { source := "ai", mode := "serving", name := food, grams := none
    ml := none, calories := 0, protein := 0, carbs := 0, fat := 0
    confidence := 1 / 10 }

/-- The `try { estimateAI } catch { stub }` block
(`src/server.js` 1541-1559). -/
def baselineAI (food : String) (raw : Except Unit AiJson) : ResolveOut :=
  match estimateAI food raw with
  | .ok r => r
  | .error _ => aiStub food

/-- Stable insertion step for the descending sort: `y` stays ahead of the
inserted `x` only when its score is strictly larger, which reproduces a
stable sort under the comparator `(a, b) => b.s - a.s`. -/
def insertScored (x : Candidate × ℚ) :
    List (Candidate × ℚ) → List (Candidate × ℚ)
  | [] => [x]
  | y :: ys => if x.2 < y.2 then y :: insertScored x ys else x :: y :: ys

/-- `candidates.map(...).sort((a, b) => b.s - a.s)`: stable descending
sort by token score. -/
def sortScoredDesc : List (Candidate × ℚ) → List (Candidate × ℚ)
  | [] => []
  | x :: xs => insertScored x (sortScoredDesc xs)

/-- The phrase-gate keyword lists (`src/server.js` 1599-1602). -/
def phraseMustHave (food : String) : List String :=
  (if containsSub "sausage roll".data (normTextL food) then
     ["sausage", "roll"] else []) ++
  (if containsSub "chicken tikka masala".data (normTextL food) then
     ["chicken", "tikka", "masala"] else []) ++
  (if containsSub "ready salted".data (normTextL food) then
     ["ready", "salted"] else [])

/-- `MIN_AI_CONFIDENCE` (`src/server.js` 1186). -/
def MIN_AI_CONFIDENCE : ℚ := 13 / 20

/-- `MIN_DB_TOKEN_SCORE` (`src/server.js` 1187). -/
def MIN_DB_TOKEN_SCORE : ℚ := 7 / 20

/-- `MIN_DB_AI_PICK_CONF` (`src/server.js` 1188). -/
def MIN_DB_AI_PICK_CONF : ℚ := 3 / 5

/-- The catalog-path result object (`src/server.js` 1667-1700). -/
def dbResult (chosen : Candidate) (grams ml : Option ℚ) : ResolveOut :=
  let scaled := scaleCandidate chosen grams ml
  { source := "fatsecret", mode := scaled.mode
    name :=
      match chosen.brand with
      | some b => b ++ " " ++ chosen.name
      | none => chosen.name
    grams := grams, ml := ml
    calories := scaled.calories, protein := scaled.protein
    carbs := scaled.carbs, fat := scaled.fat
    confidence := 9 / 10 }

/-- The body of the catalog upgrade attempt (`src/server.js` 1579-1707),
entered when the search call succeeded.  `chosenScore` is computed in the
source only for the debug payload and plays no part in any gate. -/
def catalogAttempt (env : Env) (food : String) (aiResult : ResolveOut)
    (grams ml : Option ℚ) (fsData : FoodsField) : ResolveOut :=
  let candidates := buildCandidates fsData
  if candidates.isEmpty then aiResult
  else
    let scored :=
      sortScoredDesc (candidates.map (fun c => (c, tokenScore food c)))
    match scored with
    | [] => aiResult
    | bestDet :: _ =>
      if bestDet.2 < MIN_DB_TOKEN_SCORE then aiResult
      else
        let top := (scored.take 6).map Prod.fst
        let brandHints := extractBrandHints food
        let phrases := phraseMustHave food
        let pick :=
          match env.pickOutcome with
          | .ok p => p
          | .error _ => { index := -1, confidence := 0 }
        let chosen :=
          if h : (0 : ℤ) ≤ pick.index ∧ pick.index.toNat < top.length then
            top.get ⟨pick.index.toNat, h.2⟩
          else bestDet.1
        let chosenText := candText chosen
        if !brandHints.isEmpty &&
            !containsAllKeywords chosenText brandHints then aiResult
        else if !phrases.isEmpty &&
            !containsAllKeywords chosenText phrases then aiResult
        else
          let aiIsLow := aiResult.confidence < MIN_AI_CONFIDENCE
          let dbPickIsWeak := pick.confidence < MIN_DB_AI_PICK_CONF
          if dbPickIsWeak && !aiIsLow then aiResult
          else if isScalingMismatch chosen grams ml food then aiResult
          else dbResult chosen grams ml

/-- The full route (`src/server.js` 1529-1715): token middleware, input
validation, cache check, unconditional generative baseline with stub
fallback, then the catalog attempt whose failure degrades to the
baseline.  The second component counts catalog-search invocations. -/
def foodResolve (env : Env) (food? : Option String) (debug : Bool) :
    Response × ℕ :=
  if !env.credsSet then (.err 500, 0)
  else if !env.tokenValid && !env.tokenFetchOk then (.err 500, 0)
  else
    match food? with
    | none => (.err 400, 0)
    | some food =>
      if food = "" then (.err 400, 0)
      else
        match env.cached, debug with
        | some c, false => (.ok c, 0)
        | _, _ =>
          let aiResult := baselineAI food env.aiRaw
          let grams := extractExplicitGrams food
          let ml := extractExplicitMl food
          match env.fsOutcome with
          | .error _ => (.ok aiResult, 1)
          | .ok fsData =>
            (.ok (catalogAttempt env food aiResult grams ml fsData), 1)

/-! ## Helper lemmas -/

theorem qTruthy_some (x : ℚ) : qTruthy (some x) = decide (x ≠ 0) := rfl

theorem qTruthy_some_ne {x : ℚ} (h : x ≠ 0) : qTruthy (some x) = true := by
  simp [qTruthy, h]

theorem qTruthy_none : qTruthy none = false := rfl

/-- Mode and factor of `scaleCandidate` when the grams branch is taken. -/
theorem scaleCandidate_weight (c : Candidate) (g : ℚ) (ml : Option ℚ)
    (hg : g ≠ 0) (hpg : qTruthy c.per_grams = true) :
    scaleCandidate c (some g) ml =
      { mode := "weight"
        calories := jsRound ((c.nutrition.getD ⟨0, 0, 0, 0⟩).calories *
          (g / c.per_grams.getD 0))
        protein := round1 ((c.nutrition.getD ⟨0, 0, 0, 0⟩).protein *
          (g / c.per_grams.getD 0))
        carbs := round1 ((c.nutrition.getD ⟨0, 0, 0, 0⟩).carbs *
          (g / c.per_grams.getD 0))
        fat := round1 ((c.nutrition.getD ⟨0, 0, 0, 0⟩).fat *
          (g / c.per_grams.getD 0))
        factor := g / c.per_grams.getD 0 } := by
  simp [scaleCandidate, qTruthy_some_ne hg, hpg]

/-! ## Claim C1: deterministic scaling is exactly linear -/

/-- **C1.** For a candidate whose description is stated per `g0` grams,
scaling to an explicit `g` grams multiplies every base macro by the
factor `g / g0`, rounding calories to the nearest integer and the macros
to one decimal; in particular `g = g0` returns `round(c0)` calories and
`g = 2 * g0` returns `round(2 * c0)`. -/
theorem scaling_linearity (c : Candidate) (base : Nutrition) (g0 g : ℚ)
    (ml : Option ℚ) (hn : c.nutrition = some base) (hp : c.per_grams = some g0)
    (hg0 : g0 ≠ 0) (hg : g ≠ 0) :
    scaleCandidate c (some g) ml =
      { mode := "weight"
        calories := jsRound (base.calories * (g / g0))
        protein := round1 (base.protein * (g / g0))
        carbs := round1 (base.carbs * (g / g0))
        fat := round1 (base.fat * (g / g0))
        factor := g / g0 }
    ∧ (scaleCandidate c (some g0) ml).calories = jsRound base.calories
    ∧ (scaleCandidate c (some (2 * g0)) ml).calories =
        jsRound (2 * base.calories) := by
  have hpg : qTruthy c.per_grams = true := by
    rw [hp]; exact qTruthy_some_ne hg0
  have key : ∀ gg : ℚ, gg ≠ 0 →
      scaleCandidate c (some gg) ml =
        { mode := "weight"
          calories := jsRound (base.calories * (gg / g0))
          protein := round1 (base.protein * (gg / g0))
          carbs := round1 (base.carbs * (gg / g0))
          fat := round1 (base.fat * (gg / g0))
          factor := gg / g0 } := by
    intro gg hgg
    rw [scaleCandidate_weight c gg ml hgg hpg, hn, hp]
    rfl
  refine ⟨key g hg, ?_, ?_⟩
  · rw [key g0 hg0]
    simp [div_self hg0]
  · rw [key (2 * g0) (mul_ne_zero two_ne_zero hg0)]
    rw [mul_div_assoc, div_self hg0, mul_one, mul_comm]

def c1wit : Candidate :=
  { id := "", name := "", brand := none, description := ""
    nutrition := some ⟨165, 18 / 5, 0, 31⟩, per_grams := some 100
    per_ml := none }

/-- Witness for C1 at the spec's own scenario: 400 g of a per-100g
candidate with 165 kcal yields 660 kcal. -/
theorem scaling_linearity_witness :
    (scaleCandidate c1wit (some 400) none).calories = 660 := by
  have h := scaling_linearity c1wit ⟨165, 18 / 5, 0, 31⟩ 100 400 none rfl rfl
    (by norm_num) (by norm_num)
  rw [h.1]
  norm_num [jsRound]

/-! ## Claim C2: mode selection order

The claim states the scaler checks volume first, so that explicit ml with
a known `per_ml` always yields mode `"volume"`.  The source checks the
grams branch first (`src/server.js` 1354-1360): when both quantities and
both bases are present the result is `"weight"`. -/

def c2cand : Candidate :=
  { id := "", name := "", brand := none, description := ""
    nutrition := some ⟨100, 0, 0, 0⟩, per_grams := some 100
    per_ml := some 100 }

/-- **C2 counterexample.** A candidate with both bases known, queried
with both explicit grams (50) and explicit ml (200): the claim requires
mode `"volume"`, the code returns `"weight"` with the grams factor. -/
theorem mode_selection_counterexample :
    (scaleCandidate c2cand (some 50) (some 200)).mode = "weight"
    ∧ (scaleCandidate c2cand (some 50) (some 200)).mode ≠ "volume"
    ∧ (scaleCandidate c2cand (some 50) (some 200)).factor = 1 / 2 := by
  refine ⟨rfl, by decide, by decide⟩

/-- **C2 amended.** The scaler checks weight first: explicit grams with a
known `per_grams` yields mode `"weight"` and factor `grams / per_grams`;
otherwise explicit ml with a known `per_ml` yields `"volume"` and factor
`ml / per_ml`; otherwise factor 1 and mode `"serving"`. -/
theorem mode_selection (c : Candidate) (grams ml : Option ℚ) :
    ((qTruthy grams && qTruthy c.per_grams) = true →
      (scaleCandidate c grams ml).mode = "weight"
      ∧ (scaleCandidate c grams ml).factor =
          grams.getD 0 / c.per_grams.getD 0)
    ∧ ((qTruthy grams && qTruthy c.per_grams) = false →
       (qTruthy ml && qTruthy c.per_ml) = true →
      (scaleCandidate c grams ml).mode = "volume"
      ∧ (scaleCandidate c grams ml).factor = ml.getD 0 / c.per_ml.getD 0)
    ∧ ((qTruthy grams && qTruthy c.per_grams) = false →
       (qTruthy ml && qTruthy c.per_ml) = false →
      (scaleCandidate c grams ml).mode = "serving"
      ∧ (scaleCandidate c grams ml).factor = 1) := by
  refine ⟨fun h => ?_, fun h1 h2 => ?_, fun h1 h2 => ?_⟩ <;>
    simp [scaleCandidate, *]

/-- Witness for C2 amended: all three modes at concrete inputs. -/
theorem mode_selection_witness :
    ((scaleCandidate c2cand (some 50) none).mode = "weight"
      ∧ (scaleCandidate c2cand (some 50) none).factor = 50 / 100)
    ∧ ((scaleCandidate c2cand none (some 200)).mode = "volume"
      ∧ (scaleCandidate c2cand none (some 200)).factor = 200 / 100)
    ∧ ((scaleCandidate c2cand none none).mode = "serving"
      ∧ (scaleCandidate c2cand none none).factor = 1) :=
  ⟨(mode_selection c2cand (some 50) none).1 (by decide),
   (mode_selection c2cand none (some 200)).2.1 (by decide) (by decide),
   (mode_selection c2cand none none).2.2 (by decide) (by decide)⟩

/-! ## Claim C6: the snack-pack allowance

The claim describes a `pack_grams` basis with a 20% tolerance and a
resulting `factor = grams / pack_grams`, mode `"weight"`.  The source has
no pack-size field at all: the allowance (`src/server.js` 1376-1379)
merely *skips the veto* for a 20-100 g crisps/bag/pack query against a
per-bag/pack candidate, and `scaleCandidate` then finds no `per_grams`
basis, so the candidate is returned unscaled (factor 1, `"serving"`). -/

def c6cand : Candidate :=
  { id := "", name := "Ready Salted Crisps", brand := none
    description := "Per 1 bag - Calories: 130kcal | Fat: 6.5g | Carbs: 16g | Protein: 1.6g"
    nutrition := some ⟨130, 13 / 2, 16, 8 / 5⟩, per_grams := none
    per_ml := none }

/-- **C6 counterexample.** Query `"50g bag of crisps"` (explicit 50 g)
against a per-bag candidate with no per-grams basis: the allowance
applies (no veto), but the accepted candidate is scaled with factor 1 and
mode `"serving"`, not with `grams / pack_grams` and mode `"weight"` as
the claim states (no pack-grams basis exists in the code). -/
theorem snack_pack_counterexample :
    extractExplicitGrams "50g bag of crisps" = some 50
    ∧ isScalingMismatch c6cand (some 50) none "50g bag of crisps" = false
    ∧ (scaleCandidate c6cand (some 50) none).mode = "serving"
    ∧ (scaleCandidate c6cand (some 50) none).mode ≠ "weight"
    ∧ (scaleCandidate c6cand (some 50) none).factor = 1 := by
  refine ⟨by decide, by decide, rfl, by decide, rfl⟩

/-- **C6 amended.** If the query carries an explicit gram quantity, the
candidate exposes no per-grams basis, the quantity lies in the 20-100 g
snack-pack window with a crisps/chips/snack/bag/pack query word, and the
description is bag/pack-phrased, then the scaling-mismatch veto is
skipped and the candidate is passed through unscaled: factor 1 and mode
`"serving"` (there is no pack-size scaling basis). -/
theorem snack_pack_allowance (c : Candidate) (g : ℚ) (q : String)
    (hg : g ≠ 0) (hpg : c.per_grams = none)
    (hserv : looksPerServingUnit c.description = true)
    (hsnack : looksLikeSnackPackQuery q (some g) = true)
    (hbag : isBagOrPackServing c.description = true) :
    isScalingMismatch c (some g) none q = false
    ∧ (scaleCandidate c (some g) none).mode = "serving"
    ∧ (scaleCandidate c (some g) none).factor = 1 := by
  refine ⟨?_, ?_, ?_⟩ <;>
    simp [isScalingMismatch, scaleCandidate, qTruthy_some_ne hg, hpg,
      qTruthy_none, hserv, hsnack, hbag]

/-- Witness for C6 amended at the counterexample's concrete input. -/
theorem snack_pack_allowance_witness :
    isScalingMismatch c6cand (some 50) none "50g bag of crisps" = false
    ∧ (scaleCandidate c6cand (some 50) none).mode = "serving"
    ∧ (scaleCandidate c6cand (some 50) none).factor = 1 :=
  snack_pack_allowance c6cand 50 "50g bag of crisps" (by norm_num) rfl
    (by decide) (by decide) (by decide)

/-! ## Claim C4: token score bounds

The claim includes `token_score ≤ 1` and describes the numerator as the
size of the token-*set* intersection.  The source (`src/server.js`
1205-1209) counts candidate token *occurrences* without deduplication, so
repeated matching tokens push the score above 1. -/

def c4cand : Candidate :=
  { id := "", name := "aa aa aa aa aa", brand := none, description := ""
    nutrition := none, per_grams := none, per_ml := none }

/-- **C4 counterexample.** A one-token query against a candidate whose
name repeats that token five times scores `5 / max(4, 1) = 5/4 > 1`,
refuting both the upper bound and the intersection formula (which would
give `1/4`). -/
theorem token_score_counterexample :
    tokenScore "aa" c4cand = 5 / 4 ∧ 1 < tokenScore "aa" c4cand :=
  ⟨by decide, by decide⟩

/-- **C4 amended.** The token score is nonnegative; a candidate sharing
no token with the query scores exactly 0; the score is the number of
candidate-token *occurrences* that belong to the query token set divided
by `max(4, |query tokens|)`, so a 1-word query matching exactly one
candidate occurrence scores `1/4`, strictly below 1 (only the upper
bound `≤ 1` and the set-intersection reading fail). -/
theorem token_score_props (q : String) (c : Candidate) :
    0 ≤ tokenScore q c
    ∧ ((∀ t ∈ tokenize (candText c), t ∉ tokenize q) → tokenScore q c = 0)
    ∧ ((tokenize q).length = 1 →
        (tokenize (candText c)).countP
          (fun t => decide (t ∈ tokenize q)) = 1 →
        tokenScore q c = 1 / 4 ∧ tokenScore q c < 1) := by
  refine ⟨?_, ?_, ?_⟩
  · unfold tokenScore
    dsimp only
    split
    · exact le_refl 0
    · exact div_nonneg (Nat.cast_nonneg _) (Nat.cast_nonneg _)
  · intro h
    unfold tokenScore
    dsimp only
    split
    · rfl
    · have hz : (tokenize (candText c)).countP
          (fun t => decide (t ∈ tokenize q)) = 0 := by
        rw [List.countP_eq_zero]
        intro a ha
        simpa using h a ha
      simp [hz]
  · intro hlen hcount
    have hne : (tokenize q).isEmpty = false := by
      cases hq : tokenize q with
      | nil => rw [hq] at hlen; simp at hlen
      | cons x xs => rfl
    unfold tokenScore
    dsimp only
    rw [if_neg (by simp [hne]), hcount, hlen]
    norm_num

def c4wit : Candidate :=
  { id := "", name := "aa bb", brand := none, description := ""
    nutrition := none, per_grams := none, per_ml := none }

/-- Witness for C4 amended: a 1-word query with exactly one matching
candidate occurrence scores 1/4. -/
theorem token_score_props_witness :
    tokenScore "aa" c4wit = 1 / 4 ∧ tokenScore "aa" c4wit < 1 :=
  (token_score_props "aa" c4wit).2.2 (by decide) (by decide)

/-! ## Claim C7: candidate-builder invariants -/

/-- **C7.** Every candidate surviving `buildCandidates` has parsed
(non-null) nutrition — whose calories, parsed from a decimal numeral,
are a (finite) rational by construction; a single-object `food` field is
handled exactly like the one-element list; and the output is a sublist of
the entry list mapped in order, i.e. catalog relevance order is preserved
with no re-sorting. -/
theorem build_candidates_props (ff : FoodsField) (e : FsEntry) :
    (∀ c ∈ buildCandidates ff, c.nutrition.isSome = true)
    ∧ buildCandidates (FoodsField.single e) =
        buildCandidates (FoodsField.list [e])
    ∧ (buildCandidates ff).Sublist ((foodArray ff).map mkCandidate) := by
  refine ⟨?_, rfl, ?_⟩
  · intro c hc
    exact (List.mem_filter.mp hc).2
  · exact List.filter_sublist _

def c7entry : FsEntry :=
  ⟨"1", some "Apple", none, some "Per 1 apple - Calories: 52kcal"⟩

/-- Witness for C7: the surviving candidate of a concrete catalog
response has parsed nutrition. -/
theorem build_candidates_props_witness :
    (mkCandidate c7entry).nutrition.isSome = true :=
  (build_candidates_props (FoodsField.list [c7entry]) c7entry).1
    (mkCandidate c7entry) (by decide)

/-! ## Claim C8: quantity extractors are total and null-safe -/

/-- **C8.** The explicit-quantity extractors (total functions in the
model, mirroring that the source never throws) return `none` on no
regex match and never return a nonpositive quantity — in particular a
zero-valued match such as `"0g"` yields `none`; and a litre match (taken
only when the `ml` regex has no match at all) is converted to
millilitres by multiplying by 1000.  The source's `Number.isFinite`
guards cannot fail on rationals, so the non-finite branch is vacuous in
the model. -/
theorem quantity_extractors_props :
    (∀ t : String, extractExplicitGrams t = none ∨
      ∃ v, extractExplicitGrams t = some v ∧ 0 < v)
    ∧ (∀ t : String, extractExplicitMl t = none ∨
      ∃ v, extractExplicitMl t = some v ∧ 0 < v)
    ∧ (∀ (t : String) (v : ℚ), scanFirst tryMlAt t.data = none →
        scanFirst tryLAt t.data = some v → 0 < v →
        extractExplicitMl t = some (v * 1000))
    ∧ extractExplicitGrams "0g" = none
    ∧ extractExplicitMl "0.5l" = some 500 := by
  refine ⟨?_, ?_, ?_, by decide, by decide⟩
  · intro t
    unfold extractExplicitGrams
    cases h : scanFirst tryGramsAt t.data with
    | none => exact Or.inl rfl
    | some v =>
      by_cases h0 : 0 < v
      · exact Or.inr ⟨v, by simp [h0], h0⟩
      · exact Or.inl (by simp [h0])
  · intro t
    unfold extractExplicitMl
    cases h : scanFirst tryMlAt t.data with
    | some v =>
      by_cases h0 : 0 < v
      · exact Or.inr ⟨v, by simp [h0], h0⟩
      · exact Or.inl (by simp [h0])
    | none =>
      cases h2 : scanFirst tryLAt t.data with
      | none => exact Or.inl rfl
      | some v =>
        by_cases h0 : 0 < v * 1000
        · exact Or.inr ⟨v * 1000, by simp [h0], h0⟩
        · exact Or.inl (by simp [h0])
  · intro t v h1 h2 hv
    have hv1000 : 0 < v * 1000 := by positivity
    unfold extractExplicitMl
    rw [h1, h2]
    simp [hv1000]

/-- Witness for C8: the litre conversion at a concrete input. -/
theorem quantity_extractors_props_witness :
    extractExplicitMl "2 l" = some (2 * 1000) :=
  quantity_extractors_props.2.2.1 "2 l" 2 (by decide) (by decide)
    (by norm_num)

/-! ## Orchestrator lemmas -/

/-- The generative baseline always carries source `"ai"` (both
`estimateAI` result shapes and the stub hard-code it). -/
theorem baselineAI_source (f : String) (raw : Except Unit AiJson) :
    (baselineAI f raw).source = "ai" := by
  cases raw with
  | error e => rfl
  | ok j =>
    unfold baselineAI estimateAI
    cases h : extractExplicitGrams f <;> simp [h]

theorem insertScored_perm (x : Candidate × ℚ) (l : List (Candidate × ℚ)) :
    List.Perm (insertScored x l) (x :: l) := by
  induction l with
  | nil => exact List.Perm.refl _
  | cons y ys ih =>
    unfold insertScored
    split
    · exact (ih.cons y).trans (List.Perm.swap x y ys)
    · exact List.Perm.refl _

theorem sortScoredDesc_perm (l : List (Candidate × ℚ)) :
    List.Perm (sortScoredDesc l) l := by
  induction l with
  | nil => exact List.Perm.refl _
  | cons x xs ih =>
    exact (insertScored_perm x (sortScoredDesc xs)).trans (ih.cons x)

/-- Every exit of the catalog attempt either falls back to the baseline
result or accepts, in which case the pre-selection best deterministic
score was at least `MIN_DB_TOKEN_SCORE` and the result is `dbResult` of
some candidate. -/
theorem catalogAttempt_cases (env : Env) (f : String) (aiR : ResolveOut)
    (grams ml : Option ℚ) (d : FoodsField) :
    catalogAttempt env f aiR grams ml d = aiR ∨
    ((∃ c ∈ buildCandidates d, MIN_DB_TOKEN_SCORE ≤ tokenScore f c) ∧
      ∃ chosen, catalogAttempt env f aiR grams ml d =
        dbResult chosen grams ml) := by
  unfold catalogAttempt
  dsimp only
  split
  · exact Or.inl rfl
  split
  · exact Or.inl rfl
  next bestDet rest heq =>
    split
    · exact Or.inl rfl
    next h2 =>
      have hmem : bestDet ∈
          (buildCandidates d).map (fun c => (c, tokenScore f c)) := by
        have hmem0 : bestDet ∈ sortScoredDesc
            ((buildCandidates d).map (fun c => (c, tokenScore f c))) := by
          rw [heq]; exact List.mem_cons_self _ _
        exact (sortScoredDesc_perm _).mem_iff.mp hmem0
      obtain ⟨c, hc, hceq⟩ := List.mem_map.mp hmem
      have hscore : MIN_DB_TOKEN_SCORE ≤ tokenScore f c := by
        have h2' := not_lt.mp h2
        rw [← hceq] at h2'
        exact h2'
      have hbest : ∃ c ∈ buildCandidates d,
          MIN_DB_TOKEN_SCORE ≤ tokenScore f c := ⟨c, hc, hscore⟩
      repeat' first
        | exact Or.inl rfl
        | exact Or.inr ⟨hbest, _, rfl⟩
        | split

/-! ## Claim C3: fallback totality

The claim quantifies over all collaborator behaviours *including
token/auth failure*.  The token middleware (`src/server.js` 1135-1148)
returns HTTP 500 before the handler runs when credentials are missing or
the token fetch fails, so an error status does surface in that case. -/

def c3env : Env :=
  { credsSet := true, tokenValid := false, tokenFetchOk := false
    cached := none, aiRaw := .error (), fsOutcome := .error ()
    pickOutcome := .error () }

/-- **C3 counterexample.** With a valid food string but a failing token
fetch (expired token, `getAccessToken` throws), the route returns HTTP
500: the token/auth failure listed by the claim does surface as an error
status. -/
theorem fallback_totality_counterexample :
    foodResolve c3env (some "chicken") false = (Response.err 500, 0) := rfl

/-- **C3 amended.** Once the token middleware succeeds (credentials are
set and a token is valid or fetchable) and the food string is non-empty,
the handler returns a JSON resolution result for *every* behaviour of
the remaining collaborators (generative estimator throwing or returning
malformed JSON, catalog search throwing, empty candidate lists, selector
throwing): no exception or error status surfaces, the failure paths
degrading to the generative baseline and at worst to the 0.1-confidence
stub. -/
theorem fallback_totality (env : Env) (f : String) (debug : Bool)
    (hc : env.credsSet = true)
    (ht : env.tokenValid = true ∨ env.tokenFetchOk = true)
    (hf : f ≠ "") :
    ∃ r, (foodResolve env (some f) debug).1 = Response.ok r := by
  have h2 : (!env.tokenValid && !env.tokenFetchOk) = false := by
    rcases ht with h | h <;> simp [h]
  unfold foodResolve
  rw [hc, h2]
  simp only [Bool.not_true, Bool.false_eq_true, if_false]
  rw [if_neg hf]
  split
  · exact ⟨_, rfl⟩
  · split
    · exact ⟨_, rfl⟩
    · exact ⟨_, rfl⟩

def c3wenv : Env :=
  { credsSet := true, tokenValid := false, tokenFetchOk := true
    cached := none, aiRaw := .error (), fsOutcome := .error ()
    pickOutcome := .error () }

/-- Witness for C3 amended: a fetched token with every later collaborator
failing still yields a JSON result. -/
theorem fallback_totality_witness :
    ∃ r, (foodResolve c3wenv (some "mackerel") false).1 = Response.ok r :=
  fallback_totality c3wenv "mackerel" false rfl (Or.inr rfl) (by decide)

/-! ## Claim C9: catalog-search invocation cap -/

/-- **C9.** The handler performs at most 2 catalog-search invocations per
request — there is no cleaned-query retry at all in this snapshot, so the
count is in fact at most 1, which satisfies the claimed cap. -/
theorem catalog_search_cap (env : Env) (food? : Option String)
    (debug : Bool) : (foodResolve env food? debug).2 ≤ 2 := by
  unfold foodResolve
  repeat' split
  all_goals norm_num

/-! ## Claim C5: the chosen candidate's score is not re-gated

The claim states the gate pipeline re-checks the selector's chosen
candidate against `MIN_DB_TOKEN_SCORE` and rejects the catalog result
when it fails.  In the source (`src/server.js` 1622-1707) `chosenScore`
is computed only for the debug payload: the only token-score gate runs
against the deterministic best *before* selection, so a selector pick
whose own score is below the threshold is still accepted. -/

def c5entryA : FsEntry :=
  ⟨"1", some "aa bb cc dd", none, some "Per 100g - Calories: 165kcal"⟩

def c5entryB : FsEntry :=
  ⟨"2", some "zz", none, some "Per 1 apple - Calories: 52kcal"⟩

def c5env : Env :=
  { credsSet := true, tokenValid := true, tokenFetchOk := true
    cached := none, aiRaw := .error ()
    fsOutcome := .ok (.list [c5entryA, c5entryB])
    pickOutcome := .ok { index := 1, confidence := 9 / 10 } }

def c5out : ResolveOut :=
  { source := "fatsecret", mode := "serving", name := "zz", grams := none
    ml := none, calories := 52, protein := 0, carbs := 0, fat := 0
    confidence := 9 / 10 }

/-- **C5 counterexample.** The selector names shortlist index 1, whose
own token score is 0 — far below `MIN_DB_TOKEN_SCORE` — yet the catalog
result built from that candidate is returned: no re-check occurs. -/
theorem chosen_score_counterexample :
    foodResolve c5env (some "aa bb cc dd") false = (Response.ok c5out, 1)
    ∧ c5out.source = "fatsecret"
    ∧ tokenScore "aa bb cc dd" (mkCandidate c5entryB) = 0
    ∧ tokenScore "aa bb cc dd" (mkCandidate c5entryB) < MIN_DB_TOKEN_SCORE
    ∧ c5out.name = (mkCandidate c5entryB).name :=
  ⟨by decide, rfl, by decide, by decide, rfl⟩

/-- **C5 amended.** The only token-score gate compares the *pre-selection
deterministic best* against `MIN_DB_TOKEN_SCORE`: every catalog-sourced
result guarantees that some built candidate (the deterministic best)
scores at least 0.35, while the chosen candidate's own score is computed
solely for the debug trace and is never re-gated. -/
theorem chosen_score_gate (env : Env) (f : String) (debug : Bool)
    (r : ResolveOut) (d : FoodsField)
    (hcach : env.cached = none) (hfs : env.fsOutcome = .ok d)
    (hr : (foodResolve env (some f) debug).1 = Response.ok r)
    (hsrc : r.source = "fatsecret") :
    ∃ c ∈ buildCandidates d, MIN_DB_TOKEN_SCORE ≤ tokenScore f c := by
  unfold foodResolve at hr
  rw [hcach, hfs] at hr
  dsimp only at hr
  split at hr
  · simp at hr
  split at hr
  · simp at hr
  split at hr
  · simp at hr
  · simp only [Response.ok.injEq] at hr
    rcases catalogAttempt_cases env f
        (baselineAI f env.aiRaw) (extractExplicitGrams f)
        (extractExplicitMl f) d with h | ⟨hbest, _⟩
    · rw [h] at hr
      rw [← hr] at hsrc
      rw [baselineAI_source] at hsrc
      simp at hsrc
    · exact hbest

/-- Witness for C5 amended at the counterexample's accepted run. -/
theorem chosen_score_gate_witness :
    ∃ c ∈ buildCandidates (FoodsField.list [c5entryA, c5entryB]),
      MIN_DB_TOKEN_SCORE ≤ tokenScore "aa bb cc dd" c :=
  chosen_score_gate c5env "aa bb cc dd" false c5out
    (FoodsField.list [c5entryA, c5entryB]) rfl rfl (by decide) rfl

/-! ## Claim C10: catalog-path confidence is the constant 0.9 -/

/-- **C10.** Every freshly computed result the resolve endpoint returns
with source `"fatsecret"` has confidence exactly 9/10, for every
collaborator behaviour — in particular independently of the chosen
candidate's token score, the selector's reported confidence, and the
scaling factor, none of which reach the confidence field.  (Cache-hit
replays are excluded by hypothesis: cached entries are opaque inputs of
the model, though in the running system they are themselves prior
outputs of this endpoint.) -/
theorem catalog_confidence (env : Env) (f : String) (debug : Bool)
    (r : ResolveOut) (hcach : env.cached = none)
    (hr : (foodResolve env (some f) debug).1 = Response.ok r)
    (hsrc : r.source = "fatsecret") :
    r.confidence = 9 / 10 := by
  unfold foodResolve at hr
  rw [hcach] at hr
  dsimp only at hr
  split at hr
  · simp at hr
  split at hr
  · simp at hr
  split at hr
  · simp at hr
  · split at hr
    · simp only [Response.ok.injEq] at hr
      rw [← hr] at hsrc
      rw [baselineAI_source] at hsrc
      simp at hsrc
    next d heq =>
      simp only [Response.ok.injEq] at hr
      rcases catalogAttempt_cases env f
          (baselineAI f env.aiRaw) (extractExplicitGrams f)
          (extractExplicitMl f) d with h | ⟨_, chosen, h⟩
      · rw [h] at hr
        rw [← hr] at hsrc
        rw [baselineAI_source] at hsrc
        simp at hsrc
      · rw [h] at hr
        rw [← hr]
        rfl

def c10entry : FsEntry :=
  ⟨"1", some "aa bb cc dd", none, some "Per 100g - Calories: 165kcal"⟩

def c10env : Env :=
  { credsSet := true, tokenValid := true, tokenFetchOk := true
    cached := none, aiRaw := .error ()
    fsOutcome := .ok (.list [c10entry]), pickOutcome := .error () }

def c10out : ResolveOut :=
  { source := "fatsecret", mode := "serving", name := "aa bb cc dd"
    grams := none, ml := none, calories := 165, protein := 0, carbs := 0
    fat := 0, confidence := 9 / 10 }

/-- Witness for C10 at a concrete accepted catalog run. -/
theorem catalog_confidence_witness : c10out.confidence = 9 / 10 :=
  catalog_confidence c10env "aa bb cc dd" false c10out rfl (by decide) rfl

end FoodResolve
